import Mathlib

/-!
Shallow embedding of the PostgreSQL migration program (src/main.go).

The program applies one schema-migration script to a list of target
databases concurrently: `main` fetches the database list, then
`migrateDatabases` dispatches one goroutine per target; each goroutine
connects (`connectToDatabase`), loads the script (`readMigrationScript`),
executes it (`executeMigration`), and sends a `MigrationResult` on a
buffered channel; a WaitGroup barrier closes the channel after all
goroutines finish and the results are collected by ranging over it.

External collaborators (the SQL driver and the filesystem) are modelled
by an `Env` of functions; each attempt's interaction with them is
recorded as a list of `Event`s (connect calls, handle acquisition and
release, file loads, executions). Completion-order nondeterminism of
the channel fan-in is modelled by quantifying over permutations of the
dispatched outcomes (the Go channel is buffered to `len(databases)`,
each goroutine sends exactly one result before its deferred
`wg.Done()`, and the collector drains the channel until it is closed
after `wg.Wait()`, so the collected list is some completion-order
permutation of the dispatched outcomes).
-/

namespace PGMigrate

/-- Error detail carried by a failed collaborator call (Go `error`). -/
abbrev Err := String

/-- An acquired connection handle (Go `*sql.DB`), abstracted to an id. -/
abbrev Conn := Nat

/-- Configuration defines the parameters for the migration process
(src/main.go lines 15-18). -/
structure Configuration where
  DBUsername : String
  MigrationDir : String
deriving DecidableEq, Repr

/-- MigrationResult holds information about the result of a migration
(src/main.go lines 21-25). Go `Error error` becomes `Option Err`,
with `none` for Go `nil`. -/
structure MigrationResult where
  Database : String
  Success : Bool
  Error : Option Err
deriving DecidableEq, Repr

/-- Observable interactions of one attempt with its collaborators. -/
inductive Event where
  | connectCall (username dbName : String)
  | acquired (c : Conn)
  | released (c : Conn)
  | loadCall (path : String)
  | execCall (c : Conn) (script : String)
deriving DecidableEq, Repr

/-- Behaviour of the external collaborators for one run: the connection
provider (`sql.Open` on a per-database connection string), the
filesystem (`os.ReadFile`), and command execution (`db.Exec`). -/
structure Env where
  connect : String → String → Except Err Conn
  readFile : String → Except Err String
  exec : Conn → String → Except Err Unit

/-- Go `filepath.Join` restricted to the two-argument use in the code. -/
def filepathJoin (dir file : String) : String := dir ++ "/" ++ file

/-- connectToDatabase connects to the specified database
(src/main.go lines 126-129): builds the connection string from the
username and database name and asks the provider for a handle. -/
def connectToDatabase (env : Env) (username dbName : String) : Except Err Conn :=
  env.connect username dbName

/-- The script path `filepath.Join(migrationDir, "migration_script.sql")`
(src/main.go line 133). -/
def scriptPath (migrationDir : String) : String :=
  filepathJoin migrationDir "migration_script.sql"

/-- readMigrationScript reads the migration script from the specified
directory (src/main.go lines 132-139). -/
def readMigrationScript (env : Env) (migrationDir : String) : Except Err String :=
  match env.readFile (scriptPath migrationDir) with
  | .error e => .error e
  | .ok migrationScript => .ok migrationScript

/-- executeMigration executes the migration script on the given database
(src/main.go lines 142-145). -/
def executeMigration (env : Env) (db : Conn) (migrationScript : String) : Except Err Unit :=
  env.exec db migrationScript

/-- One migration attempt: the body of the goroutine dispatched per
database name (src/main.go lines 82-109). Returns the `MigrationResult`
sent on the channel together with the trace of collaborator events,
including the `released` event produced by the deferred `db.Close()`
that runs on every exit path after a successful connect. -/
def attempt (env : Env) (config : Configuration) (dbName : String) :
    MigrationResult × List Event :=
  match connectToDatabase env config.DBUsername dbName with
  | .error e =>
      (⟨dbName, false, some e⟩,
       [Event.connectCall config.DBUsername dbName])
  | .ok db =>
      match readMigrationScript env config.MigrationDir with
      | .error e =>
          (⟨dbName, false, some e⟩,
           [Event.connectCall config.DBUsername dbName, Event.acquired db,
            Event.loadCall (scriptPath config.MigrationDir), Event.released db])
      | .ok migrationScript =>
          match executeMigration env db migrationScript with
          | .error e =>
              (⟨dbName, false, some e⟩,
               [Event.connectCall config.DBUsername dbName, Event.acquired db,
                Event.loadCall (scriptPath config.MigrationDir),
                Event.execCall db migrationScript, Event.released db])
          | .ok _ =>
              (⟨dbName, true, none⟩,
               [Event.connectCall config.DBUsername dbName, Event.acquired db,
                Event.loadCall (scriptPath config.MigrationDir),
                Event.execCall db migrationScript, Event.released db])

/-- migrateDatabases performs schema migrations for multiple databases
(src/main.go lines 76-123): one attempt is dispatched per input name and
each attempt contributes exactly one outcome. The list is given in
dispatch order; the channel fan-in delivers it in some completion-order
permutation, which the theorems quantify over. -/
def migrateDatabases (env : Env) (config : Configuration) (databases : List String) :
    List MigrationResult :=
  databases.map (fun dbName => (attempt env config dbName).1)

/-- The combined collaborator-event trace of a run, attempts in dispatch
order (any true interleaving has the same per-attempt events). -/
def runEvents (env : Env) (config : Configuration) (databases : List String) :
    List Event :=
  databases.flatMap (fun dbName => (attempt env config dbName).2)

/-- The channel fan-in (src/main.go lines 112-120): a completion
schedule picks dispatched attempts by index, one send per attempt, and
the collector appends outcomes in that order. A schedule that is a
permutation of all indices models an arbitrary interleaving in which
every attempt reached a terminal state and sent its outcome. -/
def collectOutcomes (env : Env) (config : Configuration) (databases : List String)
    (schedule : List (Fin databases.length)) : List MigrationResult :=
  schedule.map (fun i => (attempt env config (databases.get i)).1)

/-- Run state threaded through the orchestrator: the configuration value
passed in at dispatch plus the event log. The Go code passes
`Configuration` by value and never assigns to it. -/
structure RunState where
  config : Configuration
  events : List Event
deriving DecidableEq, Repr

/-- One attempt as a state transformer: appends the attempt's events to
the log and leaves the configuration as it found it. -/
def attemptRun (env : Env) (s : RunState) (dbName : String) :
    MigrationResult × RunState :=
  let r := attempt env s.config dbName
  (r.1, ⟨s.config, s.events ++ r.2⟩)

/-- The orchestrator as explicit state passing over the run state. -/
def migrateDatabasesRun (env : Env) (s : RunState) (databases : List String) :
    List MigrationResult × RunState :=
  match databases with
  | [] => ([], s)
  | dbName :: rest =>
      let r := attemptRun env s dbName
      let tail := migrateDatabasesRun env r.2 rest
      (r.1 :: tail.1, tail.2)

/-- Outcome of one process invocation: `log.Fatal` (exit status 1) or a
normal return (exit status 0) carrying the aggregated results. -/
inductive ProcessOutcome where
  | fatal (msg : String)
  | normal (results : List MigrationResult)
deriving DecidableEq, Repr

/-- Exit status of the process: `log.Fatal` exits with 1, a normal
return from `main` exits with 0. -/
def exitCode : ProcessOutcome → Nat
  | .fatal _ => 1
  | .normal _ => 0

/-- Go `fmt %v` of the stored error. -/
def errString : Option Err → String
  | some e => e
  | none => "<nil>"

/-- The report line `[%s] Database: %s` for one result
(src/main.go line 155). -/
def resultLine (r : MigrationResult) : String :=
  let successStr := if !r.Success then "Failed" else "Success"
  "[" ++ successStr ++ "] Database: " ++ r.Database

/-- printMigrationResults prints the results of the migration process
(src/main.go lines 148-160), modelled as the list of printed lines. -/
def printMigrationResults (results : List MigrationResult) : List String :=
  "Migration Results:" ::
    results.flatMap (fun r =>
      if !r.Success then [resultLine r, "Error: " ++ errString r.Error]
      else [resultLine r])

/-- `true` when the report carries the status line of every result. -/
def reportsAll (results : List MigrationResult) (report : List String) : Bool :=
  results.all (fun r => report.contains (resultLine r))

/-- Collaborators of `main`: the database directory source
(`fetchDatabases`, src/main.go lines 48-73, modelled by its contract
since its internals are the SQL driver) plus the per-attempt `Env`. -/
structure MainEnv where
  fetchDatabases : String → Except Err (List String)
  env : Env

/-- The configuration literal defined in `main` (src/main.go lines 29-32). -/
def defaultConfig : Configuration :=
  ⟨"username", "src/migration"⟩

/-- main (src/main.go lines 27-45): fetch the database list; on failure
`log.Fatal` terminates the process before any attempt is dispatched
(empty event trace); otherwise run the migrations, print every result
and return normally. -/
def mainModel (menv : MainEnv) : ProcessOutcome × List Event :=
  match menv.fetchDatabases defaultConfig.DBUsername with
  | .error e => (.fatal ("Failed to fetch databases:" ++ e), [])
  | .ok databases =>
      (.normal (migrateDatabases menv.env defaultConfig databases),
       runEvents menv.env defaultConfig databases)

/-- A concrete collaborator behaviour for witnesses: connecting to
"db2" fails, every other name yields the handle `dbName.length`; the
script loads; execution fails on handle 4 only. -/
def testEnv : Env where
  connect := fun _ dbName =>
    if dbName = "db2" then .error "pq: connection refused" else .ok dbName.length
  readFile := fun _ => .ok "CREATE TABLE t (x int);"
  exec := fun c _ => if c = 4 then .error "pq: syntax error" else .ok ()

/-- A collaborator behaviour whose script load fails for every path. -/
def loadFailEnv : Env where
  connect := fun _ dbName => .ok dbName.length
  readFile := fun _ => .error "no such file or directory"
  exec := fun _ _ => .ok ()

/-- An always-succeeding variant of `testEnv` that agrees with it on the
collaborators seen by the attempt for "db1". -/
def isolationEnv : Env where
  connect := fun _ dbName => .ok dbName.length
  readFile := testEnv.readFile
  exec := testEnv.exec

/-- C8: for the empty target list, `migrateDatabases` returns an empty
outcome collection and the event trace is empty: the script loader and
the connection provider are never invoked. -/
theorem C8_empty_list (env : Env) (config : Configuration) :
    migrateDatabases env config [] = [] ∧ runEvents env config [] = [] :=
  ⟨rfl, rfl⟩

/-- C10: every `MigrationResult` produced by an attempt has `Success`
true exactly when `Error` is `none`, and its `Database` field equals the
target name the attempt was dispatched for. -/
theorem C10_result_invariant (env : Env) (config : Configuration) (dbName : String) :
    ((attempt env config dbName).1.Success = true ↔
      (attempt env config dbName).1.Error = none) ∧
    (attempt env config dbName).1.Database = dbName := by
  rcases hc : connectToDatabase env config.DBUsername dbName with e | db
  · simp [attempt, hc]
  · rcases hr : readMigrationScript env config.MigrationDir with e | s
    · simp [attempt, hc, hr]
    · rcases hx : executeMigration env db s with e | u
      · simp [attempt, hc, hr, hx]
      · simp [attempt, hc, hr, hx]

/-- C3: when connection acquisition fails, the attempt produces a failed
outcome carrying the connection error, and its whole trace is the single
connect call: no load and no execution happen for that target. -/
theorem C3_connect_failure (env : Env) (config : Configuration) (dbName : String)
    (e : Err) (h : env.connect config.DBUsername dbName = .error e) :
    (attempt env config dbName).1 = ⟨dbName, false, some e⟩ ∧
    (attempt env config dbName).2 = [Event.connectCall config.DBUsername dbName] := by
  simp [attempt, connectToDatabase, h]

theorem C3_connect_failure_witness :
    (attempt testEnv defaultConfig "db2").1 =
      (⟨"db2", false, some "pq: connection refused"⟩ : MigrationResult) ∧
    (attempt testEnv defaultConfig "db2").2 =
      [Event.connectCall "username" "db2"] :=
  C3_connect_failure testEnv defaultConfig "db2" "pq: connection refused" rfl

/-- C2: when connection acquisition succeeds, the handle is released
exactly once before the attempt terminates, on every exit path (success,
load failure, or execution failure), and acquired exactly once. -/
theorem C2_release_exactly_once (env : Env) (config : Configuration) (dbName : String)
    (c : Conn) (h : env.connect config.DBUsername dbName = .ok c) :
    (attempt env config dbName).2.count (Event.released c) = 1 ∧
    (attempt env config dbName).2.count (Event.acquired c) = 1 := by
  rcases hr : env.readFile (scriptPath config.MigrationDir) with e | s
  · simp [attempt, connectToDatabase, readMigrationScript, h, hr]
  · rcases hx : env.exec c s with e | u
    · simp [attempt, connectToDatabase, readMigrationScript, executeMigration, h, hr, hx]
    · simp [attempt, connectToDatabase, readMigrationScript, executeMigration, h, hr, hx]

theorem C2_release_exactly_once_witness :
    (attempt testEnv defaultConfig "db1").2.count (Event.released 3) = 1 ∧
    (attempt testEnv defaultConfig "db1").2.count (Event.acquired 3) = 1 :=
  C2_release_exactly_once testEnv defaultConfig "db1" 3 rfl

/-- C4: when the script load fails after a successful connect, the
attempt produces a failed outcome carrying the load error (the same
error for every target, since the path depends only on the shared
configuration), the trace releases the handle exactly once, and no
execution event occurs. -/
theorem C4_load_failure (env : Env) (config : Configuration) (dbName : String)
    (c : Conn) (e : Err)
    (hc : env.connect config.DBUsername dbName = .ok c)
    (hl : env.readFile (scriptPath config.MigrationDir) = .error e) :
    (attempt env config dbName).1 = ⟨dbName, false, some e⟩ ∧
    (attempt env config dbName).2 =
      [Event.connectCall config.DBUsername dbName, Event.acquired c,
       Event.loadCall (scriptPath config.MigrationDir), Event.released c] := by
  simp [attempt, connectToDatabase, readMigrationScript, hc, hl]

theorem C4_load_failure_witness :
    (attempt loadFailEnv defaultConfig "db1").1 =
      (⟨"db1", false, some "no such file or directory"⟩ : MigrationResult) ∧
    (attempt loadFailEnv defaultConfig "db1").2 =
      [Event.connectCall "username" "db1", Event.acquired 3,
       Event.loadCall "src/migration/migration_script.sql", Event.released 3] :=
  C4_load_failure loadFailEnv defaultConfig "db1" 3 "no such file or directory" rfl rfl

/-- C5: the outcome for a target depends only on the collaborator
behaviour its own attempt observes: two environments that agree on that
target's connection result, on the shared script source, and on
execution over that target's handle produce identical attempts, whatever
either environment does for any other target — no global short-circuit. -/
theorem C5_failure_isolation (env1 env2 : Env) (config : Configuration) (x : String)
    (hc : env1.connect config.DBUsername x = env2.connect config.DBUsername x)
    (hr : env1.readFile (scriptPath config.MigrationDir) =
          env2.readFile (scriptPath config.MigrationDir))
    (he : ∀ c s, env1.connect config.DBUsername x = .ok c →
          env1.exec c s = env2.exec c s) :
    attempt env1 config x = attempt env2 config x := by
  rcases hcv : env1.connect config.DBUsername x with e | c
  · have hc2 : env2.connect config.DBUsername x = .error e := by rw [← hc, hcv]
    simp [attempt, connectToDatabase, hcv, hc2]
  · have hc2 : env2.connect config.DBUsername x = .ok c := by rw [← hc, hcv]
    rcases hrv : env1.readFile (scriptPath config.MigrationDir) with e | s
    · have hr2 : env2.readFile (scriptPath config.MigrationDir) = .error e := by
        rw [← hr, hrv]
      simp [attempt, connectToDatabase, readMigrationScript, hcv, hc2, hrv, hr2]
    · have hr2 : env2.readFile (scriptPath config.MigrationDir) = .ok s := by
        rw [← hr, hrv]
      have hx := he c s hcv
      rcases hxv : env1.exec c s with e | u
      · have hx2 : env2.exec c s = .error e := by rw [← hx, hxv]
        simp [attempt, connectToDatabase, readMigrationScript, executeMigration,
          hcv, hc2, hrv, hr2, hxv, hx2]
      · have hx2 : env2.exec c s = .ok u := by rw [← hx, hxv]
        simp [attempt, connectToDatabase, readMigrationScript, executeMigration,
          hcv, hc2, hrv, hr2, hxv, hx2]

theorem C5_failure_isolation_witness :
    attempt testEnv defaultConfig "db1" = attempt isolationEnv defaultConfig "db1" :=
  C5_failure_isolation testEnv isolationEnv defaultConfig "db1" rfl rfl
    (fun _ _ _ => rfl)

/-- C9: the run configuration is never mutated: threading the run state
through every dispatched attempt leaves the configuration component
equal to the value passed in. -/
theorem C9_config_immutable (env : Env) (s : RunState) (databases : List String) :
    (migrateDatabasesRun env s databases).2.config = s.config := by
  induction databases generalizing s with
  | nil => rfl
  | cons dbName rest ih => simp [migrateDatabasesRun, attemptRun, ih]

/-- The state-passing orchestrator computes the same outcomes as the
functional one; its only extra effect is appending events. -/
theorem migrateDatabasesRun_fst (env : Env) (s : RunState) (databases : List String) :
    (migrateDatabasesRun env s databases).1 = migrateDatabases env s.config databases := by
  induction databases generalizing s with
  | nil => rfl
  | cons dbName rest ih => simp [migrateDatabasesRun, attemptRun, migrateDatabases, ih]

/-- C1: for every input list of N target names (duplicates included),
any completion-order collection of the run's outcomes has exactly N
elements, one per element of the input list — none dropped, none
double-counted — regardless of relative completion timing. -/
theorem C1_outcome_per_target (env : Env) (config : Configuration)
    (databases : List String) (collected : List MigrationResult)
    (h : collected.Perm (migrateDatabases env config databases)) :
    collected.length = databases.length ∧
    (collected : Multiset MigrationResult) =
      (databases.map (fun dbName => (attempt env config dbName).1) :
        List MigrationResult) := by
  constructor
  · rw [h.length_eq]
    simp [migrateDatabases]
  · exact Multiset.coe_eq_coe.mpr h

theorem C1_outcome_per_target_witness :
    ([⟨"db10", false, some "pq: syntax error"⟩,
      ⟨"db2", false, some "pq: connection refused"⟩,
      ⟨"db1", true, none⟩] : List MigrationResult).length =
        ["db1", "db2", "db10"].length ∧
    (([⟨"db10", false, some "pq: syntax error"⟩,
       ⟨"db2", false, some "pq: connection refused"⟩,
       ⟨"db1", true, none⟩] : List MigrationResult) : Multiset MigrationResult) =
      ((["db1", "db2", "db10"].map
          (fun dbName => (attempt testEnv defaultConfig dbName).1) :
        List MigrationResult) : Multiset MigrationResult) :=
  C1_outcome_per_target testEnv defaultConfig ["db1", "db2", "db10"]
    [⟨"db10", false, some "pq: syntax error"⟩,
     ⟨"db2", false, some "pq: connection refused"⟩,
     ⟨"db1", true, none⟩] (by decide)

/-- C6: `migrateDatabases` is a barrier: a collection produced by any
schedule that delivers every dispatched attempt exactly once (every
interleaving in which all attempts reached a terminal state) is a
permutation of the dispatched outcomes — nothing lost, nothing
duplicated — and has one element per dispatched target. -/
theorem C6_barrier_collects_all (env : Env) (config : Configuration)
    (databases : List String) (schedule : List (Fin databases.length))
    (h : schedule.Perm (List.finRange databases.length)) :
    (collectOutcomes env config databases schedule).Perm
      (migrateDatabases env config databases) ∧
    (collectOutcomes env config databases schedule).length = databases.length := by
  have hmap : (List.finRange databases.length).map
      (fun i => (attempt env config (databases.get i)).1) =
      migrateDatabases env config databases := by
    have hcomp : (List.finRange databases.length).map
        (fun i => (attempt env config (databases.get i)).1) =
        ((List.finRange databases.length).map databases.get).map
          (fun dbName => (attempt env config dbName).1) := by
      rw [List.map_map]
      rfl
    rw [hcomp, List.finRange_map_get]
    rfl
  have hp : (collectOutcomes env config databases schedule).Perm
      (migrateDatabases env config databases) := by
    rw [collectOutcomes, ← hmap]
    exact h.map _
  refine ⟨hp, ?_⟩
  rw [hp.length_eq]
  simp [migrateDatabases]

theorem C6_barrier_collects_all_witness :
    (collectOutcomes testEnv defaultConfig ["db1", "db2", "db10"]
        [⟨2, by decide⟩, ⟨0, by decide⟩, ⟨1, by decide⟩]).Perm
      (migrateDatabases testEnv defaultConfig ["db1", "db2", "db10"]) ∧
    (collectOutcomes testEnv defaultConfig ["db1", "db2", "db10"]
        [⟨2, by decide⟩, ⟨0, by decide⟩, ⟨1, by decide⟩]).length =
      (["db1", "db2", "db10"] : List String).length :=
  C6_barrier_collects_all testEnv defaultConfig ["db1", "db2", "db10"]
    [⟨2, by decide⟩, ⟨0, by decide⟩, ⟨1, by decide⟩] (by decide)

/-- Every result has its status line in the printed report. -/
theorem mem_printMigrationResults (results : List MigrationResult)
    (r : MigrationResult) (hr : r ∈ results) :
    resultLine r ∈ printMigrationResults results := by
  refine List.mem_cons_of_mem _ (List.mem_flatMap.mpr ⟨r, hr, ?_⟩)
  by_cases hs : r.Success <;> simp [hs]

/-- The printed report carries a status line for every outcome. -/
theorem reportsAll_printMigrationResults (results : List MigrationResult) :
    reportsAll results (printMigrationResults results) = true := by
  rw [reportsAll, List.all_eq_true]
  intro r hr
  simpa [List.contains] using mem_printMigrationResults results r hr

/-- C7: when fetching the database list fails, the process terminates
via `log.Fatal` with exit status 1 and an empty event trace — no attempt
is dispatched; when fetching succeeds, the process exits with status 0
whatever the per-target outcomes are, after a report that carries a
status line for every outcome. -/
theorem C7_exit_behavior (menv1 menv2 : MainEnv) (e : Err) (dbs : List String)
    (h1 : menv1.fetchDatabases defaultConfig.DBUsername = .error e)
    (h2 : menv2.fetchDatabases defaultConfig.DBUsername = .ok dbs) :
    (mainModel menv1 = (.fatal ("Failed to fetch databases:" ++ e), []) ∧
     exitCode (mainModel menv1).1 = 1) ∧
    (exitCode (mainModel menv2).1 = 0 ∧
     mainModel menv2 = (.normal (migrateDatabases menv2.env defaultConfig dbs),
                        runEvents menv2.env defaultConfig dbs) ∧
     reportsAll (migrateDatabases menv2.env defaultConfig dbs)
       (printMigrationResults (migrateDatabases menv2.env defaultConfig dbs)) = true) := by
  refine ⟨⟨?_, ?_⟩, ?_, ?_, reportsAll_printMigrationResults _⟩
  · simp [mainModel, h1]
  · simp [mainModel, h1, exitCode]
  · simp [mainModel, h2, exitCode]
  · simp [mainModel, h2]

/-- A directory source that cannot be queried. -/
def fatalMainEnv : MainEnv where
  fetchDatabases := fun _ => .error "pq: connection refused"
  env := testEnv

/-- A directory source returning two targets, one of which will fail. -/
def okMainEnv : MainEnv where
  fetchDatabases := fun _ => .ok ["db1", "db2"]
  env := testEnv

theorem C7_exit_behavior_witness :
    (mainModel fatalMainEnv =
        (.fatal ("Failed to fetch databases:" ++ "pq: connection refused"), []) ∧
     exitCode (mainModel fatalMainEnv).1 = 1) ∧
    (exitCode (mainModel okMainEnv).1 = 0 ∧
     mainModel okMainEnv =
        (.normal (migrateDatabases okMainEnv.env defaultConfig ["db1", "db2"]),
         runEvents okMainEnv.env defaultConfig ["db1", "db2"]) ∧
     reportsAll (migrateDatabases okMainEnv.env defaultConfig ["db1", "db2"])
       (printMigrationResults
         (migrateDatabases okMainEnv.env defaultConfig ["db1", "db2"])) = true) :=
  C7_exit_behavior fatalMainEnv okMainEnv "pq: connection refused" ["db1", "db2"]
    rfl rfl

end PGMigrate
